import Mathlib

/-!
Shallow embedding of the patient-registration submission pipeline from
src/websocket-server/src/functionHandlers.ts: the completeness validator
(validatePatientData), the network-error classifier (isNetworkError), the
retrying fetch helper (fetchWithRetry) and the save_patient_details handler
(savePatientDetails), together with theorems settling the frozen claims.
JS strings are modelled as Lean String values; the runtime collaborators
(fetch, JSON.parse, the abort error raised by the 30-second timeout) are
modelled as explicit parameters of the environment.
-/

/-- JS whitespace as used by String.prototype.trim: the ASCII whitespace
characters plus NBSP, line separator, paragraph separator and BOM. -/
def isJsSpace (c : Char) : Bool :=
  c == ' ' || c == '\t' || c == '\n' || c == '\r' ||
  c == Char.ofNat 11 || c == Char.ofNat 12 || c == Char.ofNat 160 ||
  c == Char.ofNat 8232 || c == Char.ofNat 8233 || c == Char.ofNat 65279

/-- Model of the JS string method trim: drop whitespace from both ends. -/
def jsTrim (s : String) : String :=
  String.mk (((s.data.dropWhile isJsSpace).reverse.dropWhile isJsSpace).reverse)

/-- Model of the JS string method toLowerCase (ASCII case mapping). -/
def lowerStr (s : String) : String :=
  String.mk (s.data.map Char.toLower)

/-- Model of the JS string method includes: substring containment. -/
def includesStr (hay needle : String) : Bool :=
  decide (needle.data <:+: hay.data)

/-- Truthiness test used by validatePatientData on a field value:
the JS condition is notValue or value.trim() equal to the empty string. -/
def isBlank (v : String) : Bool :=
  (v == "") || (jsTrim v == "")

-- ---- Data model (the three interfaces of functionHandlers.ts) ----

/-- PatientInformation interface: seven required string fields. -/
structure PatientInformation where
  FirstName : String
  LastName : String
  DateOfBirth : String
  SSN : String
  EmailID : String
  MaritalStatus : String
  PhoneNumber : String

/-- Address interface: six required string fields. -/
structure Address where
  «Type» : String
  AddressLine1 : String
  City : String
  State : String
  Country : String
  ZipCode : String

/-- FullPatientData interface: the composite PatientRecord. -/
structure FullPatientData where
  PatientInformation : PatientInformation
  Address : Address

/-- Object.entries of a PatientInformation value, in declaration order. -/
def patientInformationEntries (p : PatientInformation) : List (String × String) :=
  [ ("FirstName", p.FirstName), ("LastName", p.LastName),
    ("DateOfBirth", p.DateOfBirth), ("SSN", p.SSN), ("EmailID", p.EmailID),
    ("MaritalStatus", p.MaritalStatus), ("PhoneNumber", p.PhoneNumber) ]

/-- Object.entries of an Address value, in declaration order. -/
def addressEntries (a : Address) : List (String × String) :=
  [ ("Type", a.«Type»), ("AddressLine1", a.AddressLine1), ("City", a.City),
    ("State", a.State), ("Country", a.Country), ("ZipCode", a.ZipCode) ]

/-- validatePatientData: push the dotted path of every blank field, first the
PatientInformation entries and then the Address entries, each loop in
declaration order (two forEach loops pushing onto the missing array). -/
def validatePatientData (data : FullPatientData) : List String :=
  let missing : List String := []
  let missing := (patientInformationEntries data.PatientInformation).foldl
    (fun acc kv => if isBlank kv.2 then acc ++ [ "PatientInformation." ++ kv.1 ] else acc)
    missing
  let missing := (addressEntries data.Address).foldl
    (fun acc kv => if isBlank kv.2 then acc ++ [ "Address." ++ kv.1 ] else acc)
    missing
  missing

-- ---- Network error classification ----

/-- The fixed list of network-failure message signatures. -/
def NETWORK_ERROR_MESSAGES : List String :=
  [ "Failed to fetch",
    "Network Error",
    "NetworkError when attempting to fetch resource",
    "Load failed",
    "network error",
    "Connection failed",
    "ECONNREFUSED",
    "ENOTFOUND",
    "ETIMEDOUT" ]

/-- isNetworkError: the error message, lowercased, contains some signature,
lowercased (case-insensitive substring matching). -/
def isNetworkError (message : String) : Bool :=
  NETWORK_ERROR_MESSAGES.any fun msg =>
    includesStr (lowerStr message) (lowerStr msg)

example : isNetworkError "Network Error" = true := by decide
example : isNetworkError "ECONNREFUSED 127.0.0.1" = true := by decide
example : isNetworkError "This operation was aborted" = false := by decide
example : isNetworkError "Bad request payload" = false := by decide
example : jsTrim "  a b  " = "a b" := by decide
example : isBlank "   " = true := by decide
example : isBlank " x " = false := by decide

-- ---- Decimal rendering of a number (JS template literal interpolation) ----

/-- Decimal digit character for a value below ten. -/
def digitChar (d : Nat) : Char :=
  Char.ofNat (48 + d)

/-- Fuel-indexed core of decimal rendering, most significant digit first. -/
def renderNatAux : Nat → Nat → List Char
  | 0, _ => []
  | fuel + 1, n =>
    if n < 10 then [ digitChar n ]
    else renderNatAux fuel (n / 10) ++ [ digitChar (n % 10) ]

/-- Decimal string of a natural number, as a JS template literal renders it. -/
def renderNat (n : Nat) : String :=
  String.mk (renderNatAux (n + 1) n)

example : renderNat 500 = "500" := by decide
example : renderNat 0 = "0" := by decide

-- ---- JSON values (runtime JSON.parse and JSON.stringify operate on these) ----

/-- JSON value tree, restricted to the shapes this pipeline produces. -/
inductive Json where
  | str (s : String)
  | bool (b : Bool)
  | obj (fields : List (String × Json))

/-- The minimal success marker object synthesized on an empty success body. -/
def successMarker : Json :=
  Json.obj [ ("success", Json.bool true) ]

-- ---- Transport model ----

/-- An HTTP response as the handler observes it: numeric status, the
content-type header and the body read as text. -/
structure Response where
  status : Nat
  contentType : Option String
  bodyText : String
deriving DecidableEq

deriving instance DecidableEq for Except

/-- Response.ok of the fetch API: status in the successful range. -/
def responseOk (r : Response) : Bool :=
  decide (200 ≤ r.status ∧ r.status < 300)

/-- What one fetch invocation does: resolve with a response, reject with an
error carrying a message, or exceed the 30-second timeout so that the
AbortController aborts the in-flight request. -/
inductive AttemptOutcome where
  | ok (r : Response)
  | err (msg : String)
  | timeout

/-- The value the awaited fetch call produces inside the try block: a
response, or a thrown error message.  A timed-out attempt rejects with the
abort error of the runtime; its message text is environment data, passed in
as abortMsg (Node rejects with the message This operation was aborted). -/
def attemptResult (outcome : AttemptOutcome) (abortMsg : String) :
    Except String Response :=
  match outcome with
  | AttemptOutcome.ok r => Except.ok r
  | AttemptOutcome.err m => Except.error m
  | AttemptOutcome.timeout => Except.error abortMsg

/-- Environment of one handler run: the transport (outcome of the nth fetch
invocation, counted from one), the abort error message of the runtime, and
the runtime JSON.parse on response bodies (error on malformed input). -/
structure Env where
  transport : Nat → AttemptOutcome
  abortMsg : String
  jsonParse : String → Except String Json

/-- Observable result of fetchWithRetry: the value it returns or throws, the
number of transport invocations made, and the backoff waits performed in
milliseconds, in order. -/
structure FetchResult where
  outcome : Except String Response
  attemptsUsed : Nat
  waits : List Nat

/-- The retry loop of fetchWithRetry, fuel-indexed so that the recursion is
structural: for attempt from one while attempt is at most maxRetries, invoke
the transport; return any response; on a thrown error rethrow it when this
was the final attempt or the error is not a network error, else sleep
delay times two to the power attempt minus one and continue.  Falling out of
the loop throws Max retries exceeded. -/
def fetchLoop (transport : Nat → AttemptOutcome) (abortMsg : String)
    (maxRetries delay : Nat) : Nat → Nat → FetchResult
  | 0, attempt => ⟨Except.error "Max retries exceeded", attempt - 1, []⟩
  | fuel + 1, attempt =>
    if attempt > maxRetries then
      ⟨Except.error "Max retries exceeded", attempt - 1, []⟩
    else
      match attemptResult (transport attempt) abortMsg with
      | Except.ok r => ⟨Except.ok r, attempt, []⟩
      | Except.error msg =>
        if attempt == maxRetries || !(isNetworkError msg) then
          ⟨Except.error msg, attempt, []⟩
        else
          let rest := fetchLoop transport abortMsg maxRetries delay fuel (attempt + 1)
          ⟨rest.outcome, rest.attemptsUsed, delay * 2 ^ (attempt - 1) :: rest.waits⟩

/-- fetchWithRetry with its two numeric parameters explicit; the handler
calls it with the defaults maxRetries three and delay one thousand. -/
def fetchWithRetry (transport : Nat → AttemptOutcome) (abortMsg : String)
    (maxRetries delay : Nat) : FetchResult :=
  fetchLoop transport abortMsg maxRetries delay (maxRetries + 1) 1

-- ---- The save_patient_details handler ----

/-- Structured form of the JSON object the handler returns: success flag and
the optional error, isNetworkError and response properties. -/
structure SubmitResult where
  success : Bool
  error : Option String
  isNetworkError : Option Bool
  response : Option Json

/-- Side effects of one handler run: transport invocations and backoff waits. -/
structure SubmitTrace where
  transportCalls : Nat
  waits : List Nat

/-- The message of the error thrown on a non-success HTTP status: the status
code and the body text, with No details substituted for an empty body. -/
def apiErrorMessage (r : Response) : String :=
  "API responded with " ++ renderNat r.status ++ ": " ++
    (if r.bodyText == "" then "No details" else r.bodyText)

/-- The check contentType includes application/json, with the optional
chaining on a missing header yielding a falsy value. -/
def contentTypeIsJson (r : Response) : Bool :=
  match r.contentType with
  | some ct => includesStr ct "application/json"
  | none => false

/-- The handler of save_patient_details: validate and return the missing
field list without touching the network when it is non-empty; otherwise call
fetchWithRetry; treat a non-success status as a thrown error carrying the
status and body text; on success parse a JSON body, substituting the success
marker for an empty or non-JSON body.  Every thrown error is caught and
converted to the failure object with the isNetworkError classification of
its message. -/
def savePatientDetails (env : Env) (args : FullPatientData) :
    SubmitResult × SubmitTrace :=
  let missingFields := validatePatientData args
  if missingFields.length > 0 then
    (⟨false, some ("Missing required fields: " ++ String.intercalate ", " missingFields),
      none, none⟩, ⟨0, []⟩)
  else
    let fr := fetchWithRetry env.transport env.abortMsg 3 1000
    let trace : SubmitTrace := ⟨fr.attemptsUsed, fr.waits⟩
    match fr.outcome with
    | Except.error msg =>
      (⟨false, some msg, some (isNetworkError msg), none⟩, trace)
    | Except.ok r =>
      if !(responseOk r) then
        (⟨false, some (apiErrorMessage r), some (isNetworkError (apiErrorMessage r)),
          none⟩, trace)
      else if contentTypeIsJson r then
        if jsTrim r.bodyText != "" then
          match env.jsonParse r.bodyText with
          | Except.ok j => (⟨true, none, none, some j⟩, trace)
          | Except.error e =>
            (⟨false, some e, some (isNetworkError e), none⟩, trace)
        else (⟨true, none, none, some successMarker⟩, trace)
      else (⟨true, none, none, some successMarker⟩, trace)

-- ---- Outbound JSON serialization and field extraction (claim C9) ----

/-- JSON.stringify of a PatientInformation value: the seven fields with
their exact names, in declaration order. -/
def patientInformationToJson (p : PatientInformation) : Json :=
  Json.obj
    [ ("FirstName", Json.str p.FirstName), ("LastName", Json.str p.LastName),
      ("DateOfBirth", Json.str p.DateOfBirth), ("SSN", Json.str p.SSN),
      ("EmailID", Json.str p.EmailID), ("MaritalStatus", Json.str p.MaritalStatus),
      ("PhoneNumber", Json.str p.PhoneNumber) ]

/-- JSON.stringify of an Address value: the six fields with their exact
names, in declaration order. -/
def addressToJson (a : Address) : Json :=
  Json.obj
    [ ("Type", Json.str a.«Type»), ("AddressLine1", Json.str a.AddressLine1),
      ("City", Json.str a.City), ("State", Json.str a.State),
      ("Country", Json.str a.Country), ("ZipCode", Json.str a.ZipCode) ]

/-- The outbound request body: the nested PatientInformation and Address
object, exactly the shape JSON.stringify gives the handler argument. -/
def fullPatientDataToJson (d : FullPatientData) : Json :=
  Json.obj
    [ ("PatientInformation", patientInformationToJson d.PatientInformation),
      ("Address", addressToJson d.Address) ]

/-- Property lookup on a parsed JSON object, none on any other value. -/
def getMember : Json → String → Option Json
  | Json.obj fields, key => lookupMember fields key
  | _, _ => none
where
  lookupMember : List (String × Json) → String → Option Json
    | [], _ => none
    | (k, v) :: rest, key => if k == key then some v else lookupMember rest key

/-- Read a JSON string value. -/
def getStringValue : Json → Option String
  | Json.str s => some s
  | _ => none

/-- Rebuild a PatientInformation value from a parsed JSON object. -/
def patientInformationOfJson (j : Json) : Option PatientInformation := do
  let firstName ← getMember j "FirstName" >>= getStringValue
  let lastName ← getMember j "LastName" >>= getStringValue
  let dob ← getMember j "DateOfBirth" >>= getStringValue
  let ssn ← getMember j "SSN" >>= getStringValue
  let email ← getMember j "EmailID" >>= getStringValue
  let marital ← getMember j "MaritalStatus" >>= getStringValue
  let phone ← getMember j "PhoneNumber" >>= getStringValue
  pure ⟨firstName, lastName, dob, ssn, email, marital, phone⟩

/-- Rebuild an Address value from a parsed JSON object. -/
def addressOfJson (j : Json) : Option Address := do
  let ty ← getMember j "Type" >>= getStringValue
  let line1 ← getMember j "AddressLine1" >>= getStringValue
  let city ← getMember j "City" >>= getStringValue
  let state ← getMember j "State" >>= getStringValue
  let country ← getMember j "Country" >>= getStringValue
  let zip ← getMember j "ZipCode" >>= getStringValue
  pure ⟨ty, line1, city, state, country, zip⟩

/-- Rebuild a FullPatientData value from the parsed outbound JSON object. -/
def fullPatientDataOfJson (j : Json) : Option FullPatientData := do
  let pij ← getMember j "PatientInformation"
  let pi ← patientInformationOfJson pij
  let aj ← getMember j "Address"
  let a ← addressOfJson aj
  pure ⟨pi, a⟩

-- ---- Concrete inputs used by the witness theorems ----

/-- A complete patient record with every field non-blank. -/
def sampleRecord : FullPatientData :=
  ⟨⟨"John", "Doe", "01/02/1990", "123-45-6789", "john@example.com", "Single", "+1 555 0100"⟩,
   ⟨"Home", "1 Main St", "Springfield", "IL", "USA", "62704"⟩⟩

/-- An incomplete record: blank first name and whitespace-only zip code. -/
def incompleteRecord : FullPatientData :=
  ⟨⟨"", "Doe", "01/02/1990", "123-45-6789", "john@example.com", "Single", "+1 555 0100"⟩,
   ⟨"Home", "1 Main St", "Springfield", "IL", "USA", "   "⟩⟩

/-- A transport that rejects every attempt with a classified network error. -/
def envAlwaysNet : Env :=
  ⟨fun _ => AttemptOutcome.err "Network Error", "This operation was aborted",
   fun _ => Except.error "Unexpected token"⟩

example : validatePatientData sampleRecord = [] := by decide
example : (savePatientDetails envAlwaysNet sampleRecord).2.transportCalls = 3 := by decide
example : (savePatientDetails envAlwaysNet sampleRecord).1.isNetworkError = some true := by decide

-- ---- Claim C4: the validator output characterized ----

/-- The thirteen dotted-path and value pairs of a record, in declaration
order: the seven PatientInformation entries first, then the six Address
entries. -/
def recordEntries (d : FullPatientData) : List (String × String) :=
  (patientInformationEntries d.PatientInformation).map
    (fun kv => ("PatientInformation." ++ kv.1, kv.2)) ++
  (addressEntries d.Address).map (fun kv => ("Address." ++ kv.1, kv.2))

/-- Folding a push-if-blank loop over a list appends, to the accumulator,
the image of the blank entries in order. -/
theorem foldl_push_eq {α β : Type} (p : α → Bool) (f : α → β) :
    ∀ (l : List α) (acc : List β),
      l.foldl (fun a kv => if p kv then a ++ [ f kv ] else a) acc
        = acc ++ (l.filter p).map f := by
  intro l
  induction l with
  | nil => intro acc; simp
  | cons x xs ih =>
    intro acc
    by_cases h : p x
    · simp [List.filter_cons, h, ih]
    · simp [List.filter_cons, h, ih]

/-- Filtering on blank values commutes with prefixing the path component. -/
theorem filter_map_pair (pre : String) (l : List (String × String)) :
    ((l.map (fun kv => (pre ++ kv.1, kv.2))).filter (fun kv => isBlank kv.2)).map Prod.fst
      = (l.filter (fun kv => isBlank kv.2)).map (fun kv => pre ++ kv.1) := by
  induction l with
  | nil => simp
  | cons x xs ih =>
    by_cases h : isBlank x.2
    · simp [List.filter_cons, h, ih]
    · simp [List.filter_cons, h, ih]

/-- The validator output equals the blank-entry paths in declaration order. -/
theorem validatePatientData_eq_spec (d : FullPatientData) :
    validatePatientData d
      = ((recordEntries d).filter (fun kv => isBlank kv.2)).map Prod.fst := by
  simp only [validatePatientData, recordEntries]
  rw [foldl_push_eq, foldl_push_eq, List.filter_append, List.map_append,
    filter_map_pair, filter_map_pair]
  simp

/-- Claim C4: for every PatientRecord, validatePatientData returns exactly
the dotted paths of the fields whose value is blank after trimming, in
declaration order (the seven PatientInformation fields and then the six
Address fields, each group preserving its property order), and it returns
the empty list if and only if every field is non-blank. -/
theorem claim_C4_validator (d : FullPatientData) :
    validatePatientData d
      = ((recordEntries d).filter (fun kv => isBlank kv.2)).map Prod.fst
    ∧ (validatePatientData d = [] ↔ ∀ kv ∈ recordEntries d, isBlank kv.2 = false) := by
  refine ⟨validatePatientData_eq_spec d, ?_⟩
  rw [validatePatientData_eq_spec d]
  constructor
  · intro h kv hkv
    have hf : (recordEntries d).filter (fun kv => isBlank kv.2) = [] :=
      List.map_eq_nil_iff.mp h
    by_contra hb
    have hb' : isBlank kv.2 = true := by
      cases hx : isBlank kv.2
      · exact absurd hx hb
      · rfl
    have : kv ∈ (recordEntries d).filter (fun kv => isBlank kv.2) :=
      List.mem_filter.mpr ⟨hkv, hb'⟩
    rw [hf] at this
    exact absurd this (List.not_mem_nil kv)
  · intro h
    have hf : (recordEntries d).filter (fun kv => isBlank kv.2) = [] := by
      apply List.filter_eq_nil_iff.mpr
      intro kv hkv
      rw [h kv hkv]
      exact Bool.false_ne_true
    rw [hf]
    rfl

-- ---- List containment lemmas for the message classification analysis ----

/-- A nonempty list that starts a cons either is empty or starts with the
same head and continues as a start of the tail. -/
theorem pre_cons_split {α : Type} {m l : List α} {a : α}
    (h : m <+: a :: l) : m = [] ∨ ∃ m', m = a :: m' ∧ m' <+: l := by
  obtain ⟨t, ht⟩ := h
  cases m with
  | nil => exact Or.inl rfl
  | cons b m' =>
    simp only [List.cons_append] at ht
    injection ht with h1 h2
    exact Or.inr ⟨m', by rw [h1], ⟨t, h2⟩⟩

/-- A contiguous segment of a cons either starts the cons or sits in the
tail. -/
theorem inf_cons_split {α : Type} {m l : List α} {a : α}
    (h : m <:+: a :: l) : m <+: a :: l ∨ m <:+: l := by
  obtain ⟨s, t, hst⟩ := h
  cases s with
  | nil => exact Or.inl ⟨t, by simpa using hst⟩
  | cons b s' =>
    simp only [List.cons_append] at hst
    injection hst with h1 h2
    exact Or.inr ⟨s', t, h2⟩

/-- A start of x ++ a :: y that avoids a is a start of x. -/
theorem pre_through_clean {α : Type} {a : α} :
    ∀ (x : List α) {m y : List α}, a ∉ m → m <+: x ++ a :: y → m <+: x := by
  intro x
  induction x with
  | nil =>
    intro m y ha h
    rcases pre_cons_split (by simpa using h) with h0 | ⟨m', hm, _⟩
    · subst h0; exact ⟨[], rfl⟩
    · exact absurd (hm ▸ List.mem_cons_self a m') ha
  | cons c x' ih =>
    intro m y ha h
    rcases pre_cons_split (by simpa using h) with h0 | ⟨m', hm, hm'⟩
    · exact h0 ▸ ⟨c :: x', rfl⟩
    · subst hm
      obtain ⟨t, ht⟩ := ih (fun hmem => ha (List.mem_cons_of_mem c hmem)) hm'
      exact ⟨t, by rw [List.cons_append, ht]⟩

/-- A contiguous segment of x ++ a :: y that avoids a sits in x or in y. -/
theorem inf_through_clean {α : Type} {a : α} :
    ∀ (x : List α) {m y : List α}, a ∉ m → m <:+: x ++ a :: y →
      m <:+: x ∨ m <:+: y := by
  intro x
  induction x with
  | nil =>
    intro m y ha h
    rcases inf_cons_split (by simpa using h) with hp | hi
    · rcases pre_cons_split hp with h0 | ⟨m', hm, _⟩
      · subst h0; exact Or.inl ⟨[], [], rfl⟩
      · exact absurd (hm ▸ List.mem_cons_self a m') ha
    · exact Or.inr hi
  | cons c x' ih =>
    intro m y ha h
    rcases inf_cons_split (by simpa using h) with hp | hi
    · rcases pre_cons_split hp with h0 | ⟨m', hm, hm'⟩
      · subst h0; exact Or.inl ⟨[], c :: x', rfl⟩
      · subst hm
        obtain ⟨t, ht⟩ :=
          pre_through_clean x' (fun hmem => ha (List.mem_cons_of_mem c hmem)) hm'
        exact Or.inl ⟨[], t, by rw [List.nil_append, List.cons_append, ht]⟩
    · rcases ih ha hi with h1 | h2
      · obtain ⟨s, t, hst⟩ := h1
        exact Or.inl ⟨c :: s, t, by rw [List.cons_append, List.cons_append, hst]⟩
      · exact Or.inr h2

/-- A contiguous segment disjoint from the right part of an append sits in
the left part. -/
theorem inf_through_disjoint {α : Type} :
    ∀ (v : List α) {m u : List α}, (∀ c ∈ v, c ∉ m) → m <:+: u ++ v →
      m <:+: u := by
  intro v
  induction v with
  | nil => intro m u _ h; simpa using h
  | cons a v' ih =>
    intro m u hd h
    have ha : a ∉ m := hd a (List.mem_cons_self a v')
    rcases inf_through_clean u ha h with h1 | h2
    · exact h1
    · cases m with
      | nil => exact ⟨[], u, rfl⟩
      | cons c m' =>
        obtain ⟨s, t, hst⟩ := h2
        have hcv : c ∈ v' := by rw [← hst]; simp
        exact absurd (List.mem_cons_self c m') (hd c (List.mem_cons_of_mem a hcv))

/-- A contiguous segment of y is a contiguous segment of x ++ y. -/
theorem inf_extend_left {α : Type} (x : List α) {m y : List α}
    (h : m <:+: y) : m <:+: x ++ y := by
  obtain ⟨s, t, hst⟩ := h
  exact ⟨x ++ s, t, by rw [← hst]; simp [List.append_assoc]⟩

/-- Pointwise equal predicates give the same any over a list. -/
theorem any_congr_mem {α : Type} {f g : α → Bool} :
    ∀ {l : List α}, (∀ x ∈ l, f x = g x) → l.any f = l.any g := by
  intro l
  induction l with
  | nil => intro _; rfl
  | cons x xs ih =>
    intro h
    simp only [List.any_cons, h x (by simp)]
    rw [ih (fun y hy => h y (by simp [hy]))]

-- ---- Digits of the rendered status code ----

/-- Every digit character of a value below ten is a decimal digit. -/
theorem digitChar_mem_digits (d : Nat) (h : d < 10) :
    digitChar d ∈ "0123456789".data := by
  have hall : ∀ d, d < 10 → digitChar d ∈ "0123456789".data := by decide
  exact hall d h

/-- Every character the decimal renderer emits is a decimal digit. -/
theorem renderNatAux_digits :
    ∀ (fuel n : Nat) (c : Char), c ∈ renderNatAux fuel n →
      c ∈ "0123456789".data := by
  intro fuel
  induction fuel with
  | zero => intro n c h; simp [renderNatAux] at h
  | succ fuel ih =>
    intro n c h
    rw [renderNatAux] at h
    by_cases h10 : n < 10
    · simp only [if_pos h10, List.mem_singleton] at h
      exact h ▸ digitChar_mem_digits n h10
    · simp only [if_neg h10, List.mem_append, List.mem_singleton] at h
      rcases h with h1 | h2
      · exact ih _ c h1
      · exact h2 ▸ digitChar_mem_digits _ (Nat.mod_lt n (by norm_num))

/-- Lowercasing fixes decimal digits. -/
theorem toLower_digit (c : Char) (h : c ∈ "0123456789".data) :
    Char.toLower c = c := by
  have hall : ∀ c ∈ "0123456789".data, Char.toLower c = c := by decide
  exact hall c h

-- ---- The composed API failure message classifies like its body ----

/-- Per-signature side facts: no signature contains a colon or a decimal
digit, occurs inside the fixed lowercased message head, or starts with a
space. -/
theorem signature_side_facts :
    ∀ sig ∈ NETWORK_ERROR_MESSAGES,
      (':' ∉ (lowerStr sig).data) ∧
      (∀ c ∈ "0123456789".data, c ∉ (lowerStr sig).data) ∧
      ¬ ((lowerStr sig).data <:+: "api responded with ".data) ∧
      ((lowerStr sig).data.head? ≠ some ' ') := by decide

/-- The lowercased data of the composed API failure message splits into the
fixed head, the status digits, a colon, a space and the lowercased body. -/
theorem apiMessage_lower_decomp (status : Nat) (body : String) :
    (lowerStr ("API responded with " ++ renderNat status ++ ": " ++ body)).data
      = ("api responded with ".data ++ renderNatAux (status + 1) status)
          ++ ':' :: ' ' :: (lowerStr body).data := by
  show (("API responded with " ++ renderNat status ++ ": " ++ body).data.map Char.toLower) = _
  rw [String.data_append, String.data_append, String.data_append]
  rw [List.map_append, List.map_append, List.map_append]
  have h1 : "API responded with ".data.map Char.toLower
      = "api responded with ".data := by decide
  have h2 : (renderNat status).data.map Char.toLower
      = renderNatAux (status + 1) status := by
    show (renderNatAux (status + 1) status).map Char.toLower = _
    rw [List.map_congr_left
      (fun c hc => toLower_digit c (renderNatAux_digits _ _ c hc))]
    exact List.map_id _
  have h3 : ": ".data.map Char.toLower = [ ':', ' ' ] := by decide
  rw [h1, h2, h3]
  show (("api responded with ".data ++ renderNatAux (status + 1) status)
      ++ [ ':', ' ' ]) ++ (lowerStr body).data = _
  simp [List.append_assoc]

/-- Classifying the composed API failure message is the same as classifying
the response body text it embeds: the fixed head, the status digits and the
separator neither contain nor complete any network signature. -/
theorem isNetworkError_apiMessage (status : Nat) (body : String) :
    isNetworkError ("API responded with " ++ renderNat status ++ ": " ++ body)
      = isNetworkError body := by
  unfold isNetworkError
  apply any_congr_mem
  intro sig hsig
  obtain ⟨hcolon, hdig, hnotapi, hhead⟩ := signature_side_facts sig hsig
  unfold includesStr
  rw [decide_eq_decide]
  rw [apiMessage_lower_decomp status body]
  constructor
  · intro h
    rcases inf_through_clean _ hcolon h with h1 | h2
    · exact absurd
        (inf_through_disjoint _
          (fun c hc => hdig c (renderNatAux_digits _ _ c hc)) h1)
        hnotapi
    · rcases inf_cons_split h2 with hp | hi
      · rcases pre_cons_split hp with h0 | ⟨m', hm, _⟩
        · exact h0 ▸ ⟨[], (lowerStr body).data, rfl⟩
        · exact absurd (by rw [hm]; rfl) hhead
      · exact hi
  · intro h
    exact inf_extend_left _ (inf_extend_left [ ':' ] (inf_extend_left [ ' ' ] h))

-- ---- Substring helpers for the failure message contents ----

/-- A middle part of a concatenation is included in it. -/
theorem includes_part (x y z : String) : includesStr (x ++ y ++ z) y = true := by
  simp only [includesStr, decide_eq_true_eq]
  refine ⟨x.data, z.data, ?_⟩
  simp [String.data_append, List.append_assoc]

/-- A final part of a concatenation is included in it. -/
theorem includes_tail (x y : String) : includesStr (x ++ y) y = true := by
  simp only [includesStr, decide_eq_true_eq]
  refine ⟨x.data, [], ?_⟩
  simp [String.data_append]

/-- The empty string is included in every string. -/
theorem includes_empty (s : String) : includesStr s "" = true := by
  simp only [includesStr, decide_eq_true_eq]
  exact ⟨[], s.data, rfl⟩

-- ---- More concrete environments for witnesses and counterexamples ----

/-- A transport that rejects the first attempt with an application error
whose message matches no network signature. -/
def envAppFail : Env :=
  ⟨fun _ => AttemptOutcome.err "Bad request payload", "This operation was aborted",
   fun _ => Except.error "Unexpected token"⟩

/-- A transport whose every attempt exceeds the thirty-second timeout, under
the Node runtime whose abort error message is This operation was aborted. -/
def envTimeout : Env :=
  ⟨fun _ => AttemptOutcome.timeout, "This operation was aborted",
   fun _ => Except.error "Unexpected token"⟩

/-- A transport that fails two attempts with a classified network error and
then resolves with a successful status, a JSON content type and a malformed
body; jsonParse models the runtime JSON.parse, which throws on the only body
text this run asks it to parse. -/
def envC3 : Env :=
  ⟨fun n => if n ≤ 2 then AttemptOutcome.err "Network Error"
            else AttemptOutcome.ok ⟨200, some "application/json", "\x7b"⟩,
   "This operation was aborted",
   fun _ => Except.error "Unexpected end of JSON input"⟩

/-- A transport that fails two attempts with a classified network error and
then resolves with a successful status and a plain-text body. -/
def envRecover : Env :=
  ⟨fun n => if n ≤ 2 then AttemptOutcome.err "Network Error"
            else AttemptOutcome.ok ⟨200, none, "OK"⟩,
   "This operation was aborted",
   fun _ => Except.error "Unexpected token"⟩

/-- A transport that resolves immediately with a server error status. -/
def envHttp500 : Env :=
  ⟨fun _ => AttemptOutcome.ok ⟨500, none, "Internal error"⟩,
   "This operation was aborted", fun _ => Except.error "Unexpected token"⟩

/-- A transport that resolves immediately with a bad-gateway status whose
body text contains a network signature. -/
def envHttp502Net : Env :=
  ⟨fun _ => AttemptOutcome.ok ⟨502, none, "Connection failed at gateway"⟩,
   "This operation was aborted", fun _ => Except.error "Unexpected token"⟩

-- ---- Claim C1 ----

/-- Claim C1: for every complete record and every transport that fails every
attempt with a transient-network-classified error, the handler returns the
failure outcome with isNetworkError true after exactly three transport
invocations, surfacing the error of the final attempt, with the two backoff
waits in between. -/
theorem claim_C1_exhausted_retries (d : FullPatientData) (env : Env)
    (m1 m2 m3 : String)
    (hv : validatePatientData d = [])
    (h1 : attemptResult (env.transport 1) env.abortMsg = Except.error m1)
    (hm1 : isNetworkError m1 = true)
    (h2 : attemptResult (env.transport 2) env.abortMsg = Except.error m2)
    (hm2 : isNetworkError m2 = true)
    (h3 : attemptResult (env.transport 3) env.abortMsg = Except.error m3)
    (hm3 : isNetworkError m3 = true) :
    (savePatientDetails env d).1.success = false ∧
    (savePatientDetails env d).1.error = some m3 ∧
    (savePatientDetails env d).1.isNetworkError = some true ∧
    (savePatientDetails env d).2.transportCalls = 3 ∧
    (savePatientDetails env d).2.waits = [ 1000, 2000 ] := by
  simp [savePatientDetails, fetchWithRetry, fetchLoop, hv, h1, h2, h3, hm1, hm2, hm3]

/-- Witness for claim C1 at a concrete complete record and a transport that
always rejects with the message Network Error. -/
theorem claim_C1_exhausted_retries_witness :
    (validatePatientData sampleRecord = [] ∧
      attemptResult (envAlwaysNet.transport 1) envAlwaysNet.abortMsg
        = Except.error "Network Error" ∧
      isNetworkError "Network Error" = true) ∧
    ((savePatientDetails envAlwaysNet sampleRecord).1.success = false ∧
      (savePatientDetails envAlwaysNet sampleRecord).1.error = some "Network Error" ∧
      (savePatientDetails envAlwaysNet sampleRecord).1.isNetworkError = some true ∧
      (savePatientDetails envAlwaysNet sampleRecord).2.transportCalls = 3 ∧
      (savePatientDetails envAlwaysNet sampleRecord).2.waits = [ 1000, 2000 ]) :=
  ⟨⟨by decide, rfl, by decide⟩,
    claim_C1_exhausted_retries sampleRecord envAlwaysNet
      "Network Error" "Network Error" "Network Error"
      (by decide) rfl (by decide) rfl (by decide) rfl (by decide)⟩

-- ---- Claim C2 ----

/-- Claim C2: for every complete record and every transport whose first
attempt throws an error not classified as a network error, the handler
aborts the retry loop at once: the failure outcome carries isNetworkError
false, the transport is invoked exactly once and no backoff wait happens. -/
theorem claim_C2_nonretryable (d : FullPatientData) (env : Env) (m : String)
    (hv : validatePatientData d = [])
    (h1 : attemptResult (env.transport 1) env.abortMsg = Except.error m)
    (hm : isNetworkError m = false) :
    (savePatientDetails env d).1.success = false ∧
    (savePatientDetails env d).1.error = some m ∧
    (savePatientDetails env d).1.isNetworkError = some false ∧
    (savePatientDetails env d).2.transportCalls = 1 ∧
    (savePatientDetails env d).2.waits = [] := by
  simp [savePatientDetails, fetchWithRetry, fetchLoop, hv, h1, hm]

/-- Witness for claim C2 at a concrete application error message. -/
theorem claim_C2_nonretryable_witness :
    (validatePatientData sampleRecord = [] ∧
      attemptResult (envAppFail.transport 1) envAppFail.abortMsg
        = Except.error "Bad request payload" ∧
      isNetworkError "Bad request payload" = false) ∧
    ((savePatientDetails envAppFail sampleRecord).1.success = false ∧
      (savePatientDetails envAppFail sampleRecord).1.error = some "Bad request payload" ∧
      (savePatientDetails envAppFail sampleRecord).1.isNetworkError = some false ∧
      (savePatientDetails envAppFail sampleRecord).2.transportCalls = 1 ∧
      (savePatientDetails envAppFail sampleRecord).2.waits = []) :=
  ⟨⟨by decide, rfl, by decide⟩,
    claim_C2_nonretryable sampleRecord envAppFail "Bad request payload"
      (by decide) rfl (by decide)⟩

-- ---- Claim C3 ----

/-- Counterexample to claim C3 as stated: the complete record is submitted
over a transport that fails the first two attempts with the classified
network error message Network Error and succeeds on the third attempt with a
successful status, yet the handler does not return the success outcome,
because the successful response carries a JSON content type and a malformed
body on which the runtime JSON.parse throws. -/
theorem claim_C3_counterexample :
    validatePatientData sampleRecord = [] ∧
    attemptResult (envC3.transport 1) envC3.abortMsg = Except.error "Network Error" ∧
    attemptResult (envC3.transport 2) envC3.abortMsg = Except.error "Network Error" ∧
    isNetworkError "Network Error" = true ∧
    attemptResult (envC3.transport 3) envC3.abortMsg
      = Except.ok ⟨200, some "application/json", "\x7b"⟩ ∧
    responseOk ⟨200, some "application/json", "\x7b"⟩ = true ∧
    (savePatientDetails envC3 sampleRecord).2.transportCalls = 3 ∧
    (savePatientDetails envC3 sampleRecord).2.waits = [ 1000, 2000 ] ∧
    (savePatientDetails envC3 sampleRecord).1.success = false := by decide

/-- Claim C3 as amended: for every complete record and every transport that
fails the first two attempts with transient-network-classified errors and
succeeds on the third with a successful status — provided the successful
response has a non-JSON content type, an empty body, or a body the runtime
JSON.parse accepts — the handler returns the success outcome, the transport
is invoked exactly three times and the two inter-retry waits are one second
and two seconds, following delay times two to the power of the failed
attempt number minus one with base delay one thousand milliseconds. -/
theorem claim_C3_backoff_recovery (d : FullPatientData) (env : Env)
    (m1 m2 : String) (r : Response)
    (hv : validatePatientData d = [])
    (h1 : attemptResult (env.transport 1) env.abortMsg = Except.error m1)
    (hm1 : isNetworkError m1 = true)
    (h2 : attemptResult (env.transport 2) env.abortMsg = Except.error m2)
    (hm2 : isNetworkError m2 = true)
    (h3 : attemptResult (env.transport 3) env.abortMsg = Except.ok r)
    (hok : responseOk r = true)
    (hbody : contentTypeIsJson r = true → jsTrim r.bodyText ≠ "" →
      ∃ j, env.jsonParse r.bodyText = Except.ok j) :
    (savePatientDetails env d).1.success = true ∧
    (savePatientDetails env d).1.error = none ∧
    (savePatientDetails env d).2.transportCalls = 3 ∧
    (savePatientDetails env d).2.waits = [ 1000, 2000 ] := by
  by_cases hct : contentTypeIsJson r = true
  · by_cases htr : jsTrim r.bodyText = ""
    · simp [savePatientDetails, fetchWithRetry, fetchLoop, hv, h1, h2, h3,
        hm1, hm2, hok, hct, htr]
    · obtain ⟨j, hj⟩ := hbody hct htr
      simp [savePatientDetails, fetchWithRetry, fetchLoop, hv, h1, h2, h3,
        hm1, hm2, hok, hct, htr, hj]
  · simp [savePatientDetails, fetchWithRetry, fetchLoop, hv, h1, h2, h3,
      hm1, hm2, hok, hct]

/-- Witness for the amended claim C3 at a transport that recovers on the
third attempt with a plain-text success response. -/
theorem claim_C3_backoff_recovery_witness :
    (validatePatientData sampleRecord = [] ∧
      attemptResult (envRecover.transport 1) envRecover.abortMsg
        = Except.error "Network Error" ∧
      attemptResult (envRecover.transport 3) envRecover.abortMsg
        = Except.ok ⟨200, none, "OK"⟩ ∧
      responseOk ⟨200, none, "OK"⟩ = true) ∧
    ((savePatientDetails envRecover sampleRecord).1.success = true ∧
      (savePatientDetails envRecover sampleRecord).1.error = none ∧
      (savePatientDetails envRecover sampleRecord).2.transportCalls = 3 ∧
      (savePatientDetails envRecover sampleRecord).2.waits = [ 1000, 2000 ]) :=
  ⟨⟨by decide, rfl, rfl, by decide⟩,
    claim_C3_backoff_recovery sampleRecord envRecover "Network Error" "Network Error"
      ⟨200, none, "OK"⟩ (by decide) rfl (by decide) rfl (by decide) rfl (by decide)
      (fun hct => absurd hct (by decide))⟩

-- ---- Claim C5 ----

/-- Claim C5: whenever the validator reports missing fields, the handler
returns the validation failure immediately — the error lists the missing
paths, no isNetworkError property is set — and the transport is never
invoked, so an incomplete record is never submitted to the remote system. -/
theorem claim_C5_validation_short_circuit (d : FullPatientData) (env : Env)
    (hv : validatePatientData d ≠ []) :
    (savePatientDetails env d).1.success = false ∧
    (savePatientDetails env d).1.error
      = some ("Missing required fields: "
          ++ String.intercalate ", " (validatePatientData d)) ∧
    (savePatientDetails env d).1.isNetworkError = none ∧
    (savePatientDetails env d).1.response = none ∧
    (savePatientDetails env d).2.transportCalls = 0 ∧
    (savePatientDetails env d).2.waits = [] := by
  have hlen : (validatePatientData d).length > 0 := List.length_pos.mpr hv
  simp [savePatientDetails, hlen]

/-- Witness for claim C5 at a record with a blank first name and a
whitespace-only zip code, over a live transport that is never consulted. -/
theorem claim_C5_validation_short_circuit_witness :
    validatePatientData incompleteRecord ≠ [] ∧
    ((savePatientDetails envAlwaysNet incompleteRecord).1.success = false ∧
      (savePatientDetails envAlwaysNet incompleteRecord).1.error
        = some ("Missing required fields: "
            ++ String.intercalate ", " (validatePatientData incompleteRecord)) ∧
      (savePatientDetails envAlwaysNet incompleteRecord).1.isNetworkError = none ∧
      (savePatientDetails envAlwaysNet incompleteRecord).1.response = none ∧
      (savePatientDetails envAlwaysNet incompleteRecord).2.transportCalls = 0 ∧
      (savePatientDetails envAlwaysNet incompleteRecord).2.waits = []) :=
  ⟨by decide,
    claim_C5_validation_short_circuit incompleteRecord envAlwaysNet (by decide)⟩

-- ---- Claim C6 ----

/-- Claim C6 evaluated at its failing input: a transport that exceeds the
thirty-second timeout on every attempt, under the Node runtime whose abort
error carries the message This operation was aborted.  That message matches
no network signature, so the timed-out first attempt is classified as
non-retryable: the handler stops after one transport invocation with no
backoff wait and flags the failure with isNetworkError false, where the
claim asserts a transient classification and a retry. -/
theorem claim_C6_timeout_not_retried :
    isNetworkError "This operation was aborted" = false ∧
    validatePatientData sampleRecord = [] ∧
    (savePatientDetails envTimeout sampleRecord).1.success = false ∧
    (savePatientDetails envTimeout sampleRecord).1.error
      = some "This operation was aborted" ∧
    (savePatientDetails envTimeout sampleRecord).1.isNetworkError = some false ∧
    (savePatientDetails envTimeout sampleRecord).2.transportCalls = 1 ∧
    (savePatientDetails envTimeout sampleRecord).2.waits = [] := by decide

-- ---- Claim C7 ----

/-- Inclusion follows from an explicit decomposition of the data. -/
theorem includes_of_data (s y : String) (u v : List Char)
    (h : s.data = u ++ y.data ++ v) : includesStr s y = true := by
  simp only [includesStr, decide_eq_true_eq]
  exact ⟨u, v, h.symm⟩

/-- Claim C7: for every complete record and every transport response with a
non-success HTTP status, the handler performs no retry — one transport
invocation, no backoff wait — and returns the failure outcome whose message
is the composed API text, which includes the numeric status code and the
response body text. -/
theorem claim_C7_status_terminal (d : FullPatientData) (env : Env) (r : Response)
    (hv : validatePatientData d = [])
    (h1 : attemptResult (env.transport 1) env.abortMsg = Except.ok r)
    (hok : responseOk r = false) :
    (savePatientDetails env d).1.success = false ∧
    (savePatientDetails env d).1.error = some (apiErrorMessage r) ∧
    includesStr (apiErrorMessage r) (renderNat r.status) = true ∧
    includesStr (apiErrorMessage r) r.bodyText = true ∧
    (savePatientDetails env d).2.transportCalls = 1 ∧
    (savePatientDetails env d).2.waits = [] := by
  refine ⟨?_, ?_, ?_, ?_, ?_, ?_⟩
  · simp [savePatientDetails, fetchWithRetry, fetchLoop, hv, h1, hok]
  · simp [savePatientDetails, fetchWithRetry, fetchLoop, hv, h1, hok]
  · exact includes_of_data _ _ "API responded with ".data
      ((": " ++ (if r.bodyText == "" then "No details" else r.bodyText)).data)
      (by simp [apiErrorMessage, String.data_append, List.append_assoc])
  · by_cases hb : r.bodyText == ""
    · have hb' : r.bodyText = "" := by simpa using hb
      rw [hb']
      exact includes_empty _
    · exact includes_of_data _ _
        ("API responded with " ++ renderNat r.status ++ ": ").data []
        (by simp [apiErrorMessage, hb, String.data_append, List.append_assoc])
  · simp [savePatientDetails, fetchWithRetry, fetchLoop, hv, h1, hok]
  · simp [savePatientDetails, fetchWithRetry, fetchLoop, hv, h1, hok]

/-- Witness for claim C7 at a transport answering status five hundred with
the body Internal error: the composed message is the expected text. -/
theorem claim_C7_status_terminal_witness :
    (validatePatientData sampleRecord = [] ∧
      attemptResult (envHttp500.transport 1) envHttp500.abortMsg
        = Except.ok ⟨500, none, "Internal error"⟩ ∧
      responseOk ⟨500, none, "Internal error"⟩ = false ∧
      apiErrorMessage ⟨500, none, "Internal error"⟩
        = "API responded with 500: Internal error") ∧
    ((savePatientDetails envHttp500 sampleRecord).1.success = false ∧
      (savePatientDetails envHttp500 sampleRecord).1.error
        = some (apiErrorMessage ⟨500, none, "Internal error"⟩) ∧
      includesStr (apiErrorMessage ⟨500, none, "Internal error"⟩)
        (renderNat 500) = true ∧
      includesStr (apiErrorMessage ⟨500, none, "Internal error"⟩)
        "Internal error" = true ∧
      (savePatientDetails envHttp500 sampleRecord).2.transportCalls = 1 ∧
      (savePatientDetails envHttp500 sampleRecord).2.waits = []) :=
  ⟨⟨by decide, rfl, by decide, by decide⟩,
    claim_C7_status_terminal sampleRecord envHttp500 ⟨500, none, "Internal error"⟩
      (by decide) rfl (by decide)⟩

-- ---- Claim C8 ----

/-- Claim C8: for every record and every transport behavior the handler
returns a structured outcome — it is a total function into the result shape
with the success flag and optional error, isNetworkError and response
properties — and every error path yields the failure form carrying an error
message and no response, while the success form carries a response and no
error. -/
theorem claim_C8_structured_outcome (env : Env) (d : FullPatientData) :
    ((savePatientDetails env d).1.success = true ∧
      (savePatientDetails env d).1.error = none ∧
      (savePatientDetails env d).1.isNetworkError = none ∧
      ∃ j, (savePatientDetails env d).1.response = some j) ∨
    ((savePatientDetails env d).1.success = false ∧
      (∃ m, (savePatientDetails env d).1.error = some m) ∧
      (savePatientDetails env d).1.response = none) := by
  by_cases hlen : (validatePatientData d).length > 0
  · right
    simp [savePatientDetails, hlen]
  · cases hout : (fetchWithRetry env.transport env.abortMsg 3 1000).outcome with
    | error msg =>
      right
      simp [savePatientDetails, hlen, hout]
    | ok r =>
      by_cases hok : responseOk r
      · by_cases hct : contentTypeIsJson r
        · by_cases htr : jsTrim r.bodyText = ""
          · left
            simp [savePatientDetails, hlen, hout, hok, hct, htr]
          · cases hp : env.jsonParse r.bodyText with
            | error e =>
              right
              simp [savePatientDetails, hlen, hout, hok, hct, htr, hp]
            | ok j =>
              left
              simp [savePatientDetails, hlen, hout, hok, hct, htr, hp]
        · left
          simp [savePatientDetails, hlen, hout, hok, hct]
      · right
        simp [savePatientDetails, hlen, hout, hok]

-- ---- Claim C9 ----

/-- Claim C9: serializing a PatientRecord to the outbound nested JSON value
with the PatientInformation and Address members, with the exact field names
and casing, and reading the record back from that JSON value yields a record
equal field for field to the original. -/
theorem claim_C9_roundTrip (d : FullPatientData) :
    fullPatientDataOfJson (fullPatientDataToJson d) = some d := by
  rcases d with ⟨⟨f1, f2, f3, f4, f5, f6, f7⟩, ⟨a1, a2, a3, a4, a5, a6⟩⟩
  rfl

-- ---- Claim C10 ----

/-- Claim C10: for every complete record and every transport response with a
non-success status, the isNetworkError flag of the returned failure is
exactly the classification of the response body text by the network
signature matcher — true when the body contains, case-insensitively, one of
the signatures, false otherwise — because the handler re-runs the matcher on
the composed failure message and the fixed head contributes no match. -/
theorem claim_C10_status_classification (d : FullPatientData) (env : Env)
    (r : Response)
    (hv : validatePatientData d = [])
    (h1 : attemptResult (env.transport 1) env.abortMsg = Except.ok r)
    (hok : responseOk r = false) :
    (savePatientDetails env d).1.success = false ∧
    (savePatientDetails env d).1.isNetworkError
      = some (isNetworkError r.bodyText) := by
  constructor
  · simp [savePatientDetails, fetchWithRetry, fetchLoop, hv, h1, hok]
  · have hbase : (savePatientDetails env d).1.isNetworkError
        = some (isNetworkError (apiErrorMessage r)) := by
      simp [savePatientDetails, fetchWithRetry, fetchLoop, hv, h1, hok]
    rw [hbase]
    by_cases hb : r.bodyText == ""
    · have hb' : r.bodyText = "" := by simpa using hb
      have hm : apiErrorMessage r
          = "API responded with " ++ renderNat r.status ++ ": " ++ "No details" := by
        simp [apiErrorMessage, hb]
      rw [hm, isNetworkError_apiMessage, hb']
      decide
    · have hm : apiErrorMessage r
          = "API responded with " ++ renderNat r.status ++ ": " ++ r.bodyText := by
        simp [apiErrorMessage, hb]
      rw [hm, isNetworkError_apiMessage]

/-- Witness for claim C10 at a bad-gateway response whose body contains the
signature Connection failed, so the flag comes back true. -/
theorem claim_C10_status_classification_witness :
    (validatePatientData sampleRecord = [] ∧
      attemptResult (envHttp502Net.transport 1) envHttp502Net.abortMsg
        = Except.ok ⟨502, none, "Connection failed at gateway"⟩ ∧
      responseOk ⟨502, none, "Connection failed at gateway"⟩ = false ∧
      isNetworkError "Connection failed at gateway" = true) ∧
    ((savePatientDetails envHttp502Net sampleRecord).1.success = false ∧
      (savePatientDetails envHttp502Net sampleRecord).1.isNetworkError
        = some (isNetworkError "Connection failed at gateway")) :=
  ⟨⟨by decide, rfl, by decide, by decide⟩,
    claim_C10_status_classification sampleRecord envHttp502Net
      ⟨502, none, "Connection failed at gateway"⟩ (by decide) rfl (by decide)⟩
